import Mathlib

/-!
# SdaLab2/server.js : user creation and order creation over one shared connection

A shallow embedding of the two service classes of `server.js`.

* The database behind `db.query` is explicit state (`World`): the three tables the
  queries name, the console, and the exceptions nobody caught.
* A `Promise` is a settle-once cell: `resolve` and `reject` act only while it is
  pending.
* What the connection answers to a query (an error object, or a result packet) is
  not decided by the program; it is the `Driver` argument of every operation.
* The connection runs queries in the order they are issued, so a query is executed
  at the point of the `db.query` call that issues it.
-/

namespace SdaLab2

/-! ## Data model -/

/-- Error object the mysql driver hands to a query callback. -/
structure StorageError where
  code : String
  message : String
deriving DecidableEq, Repr

/-- Values a promise is rejected with, or that are thrown. -/
inductive Failure where
  /-- The value of `new Error(message)`, thrown by the service code. -/
  | error (message : String)
  /-- A `TypeError` raised by the runtime on a property read of `undefined`. -/
  | typeError (message : String)
  /-- An error object reported by the driver. -/
  | storage (e : StorageError)
deriving DecidableEq, Repr

/-- Request body of `POST /api/users`. -/
structure UserData where
  email : String
  fields : List (String × String)
deriving DecidableEq, Repr

/-- Request body of `POST /api/orders`. -/
structure OrderData where
  productId : Nat
  quantity : Nat
  paymentDetails : String
  email : String
deriving DecidableEq, Repr

/-- Row of the table `inventory(product_id, quantity)`. -/
structure InventoryRow where
  product_id : Nat
  quantity : Int
deriving DecidableEq, Repr

/-- Result packet of a write query, as the driver reports it. -/
structure OkPacket where
  insertId : Nat
  affectedRows : Nat
deriving DecidableEq, Repr

/-- Everything the program can change: the tables, the console, and the exceptions
that reached the top of the event loop. -/
structure World where
  users : List UserData
  orders : List OrderData
  inventory : List InventoryRow
  console : List String
  uncaught : List Failure
deriving DecidableEq, Repr

/-- Answers of the connection to the queries of one request. -/
structure Driver where
  /-- Error reported for `SELECT * FROM inventory WHERE product_id = ?`, if any. -/
  selectError : Option StorageError
  /-- Answer to `INSERT INTO users SET ?` or `INSERT INTO orders SET ?`. -/
  insertReply : Except StorageError OkPacket
  /-- Answer to `UPDATE inventory SET quantity = quantity - 1 WHERE product_id = ?`. -/
  updateReply : Except StorageError OkPacket

/-- Arguments `(error, results)` of a query callback; `none` is `undefined`/`null`. -/
structure Reply (ρ : Type) where
  error : Option StorageError
  results : Option ρ

/-! ## Promises -/

/-- State of a promise. -/
inductive Promise (α : Type) where
  | pending
  | fulfilled (value : α)
  | rejected (reason : Failure)
deriving DecidableEq, Repr

/-- Call of `resolve(v)`: settles a pending promise, does nothing otherwise. -/
def Promise.resolve {α : Type} (p : Promise α) (v : α) : Promise α :=
  match p with
  | .pending => .fulfilled v
  | .fulfilled w => .fulfilled w
  | .rejected e => .rejected e

/-- Call of `reject(e)`: settles a pending promise, does nothing otherwise. -/
def Promise.reject {α : Type} (p : Promise α) (e : Failure) : Promise α :=
  match p with
  | .pending => .rejected e
  | .fulfilled w => .fulfilled w
  | .rejected e0 => .rejected e0

/-- The statement `if (error) reject(error);` of the query callbacks. It has no
`return`: the callback goes on after it. -/
def Promise.rejectIf {α : Type} (p : Promise α) (error : Option StorageError) : Promise α :=
  match error with
  | some e => p.reject (.storage e)
  | none => p

/-! ## The store behind `db.query` -/

/-- Call of `console.log(line)`. -/
def World.log (w : World) (line : String) : World :=
  { w with console := w.console ++ [line] }

/-- An exception that leaves a callback, or a rejection nobody handles. -/
def World.raise (w : World) (e : Failure) : World :=
  { w with uncaught := w.uncaught ++ [e] }

/-- Rows selected by `WHERE product_id = ?`. -/
def selectInventory (inventory : List InventoryRow) (productId : Nat) : List InventoryRow :=
  inventory.filter (fun r => r.product_id == productId)

/-- Effect of `SET quantity = quantity - 1 WHERE product_id = ?` on the table. -/
def decrementInventory (inventory : List InventoryRow) (productId : Nat) : List InventoryRow :=
  inventory.map (fun r =>
    if r.product_id == productId then { r with quantity := r.quantity - 1 } else r)

/-- Query `INSERT INTO users SET ?`: the row is stored when the driver reports no error. -/
def queryInsertUser (d : Driver) (row : UserData) (w : World) : Reply OkPacket × World :=
  match d.insertReply with
  | .ok r => (⟨none, some r⟩, { w with users := w.users ++ [row] })
  | .error e => (⟨some e, none⟩, w)

/-- Query `INSERT INTO orders SET ?`: the row is stored when the driver reports no error. -/
def queryInsertOrder (d : Driver) (row : OrderData) (w : World) : Reply OkPacket × World :=
  match d.insertReply with
  | .ok r => (⟨none, some r⟩, { w with orders := w.orders ++ [row] })
  | .error e => (⟨some e, none⟩, w)

/-- Query `SELECT * FROM inventory WHERE product_id = ?`. -/
def querySelectInventory (d : Driver) (productId : Nat) (w : World) :
    Reply (List InventoryRow) :=
  match d.selectError with
  | some e => ⟨some e, none⟩
  | none => ⟨none, some (selectInventory w.inventory productId)⟩

/-- Query `UPDATE inventory SET quantity = quantity - 1 WHERE product_id = ?`. -/
def queryUpdateInventory (d : Driver) (productId : Nat) (w : World) : Reply OkPacket × World :=
  match d.updateReply with
  | .ok r => (⟨none, some r⟩, { w with inventory := decrementInventory w.inventory productId })
  | .error e => (⟨some e, none⟩, w)

/-! ## UserManager -/

namespace UserManager

/-- Method `sendWelcomeEmail(email)`. -/
def sendWelcomeEmail (email : String) (w : World) : World :=
  w.log ("Sending welcome email to " ++ email)

/-- Method `createUser(userData)`: the promise it returns, as the caller sees it once the
query callback has run, and the world after. -/
def createUser (d : Driver) (userData : UserData) (w : World) :
    Promise (Option OkPacket) × World :=
  let (reply, w1) := queryInsertUser d userData w
  let p : Promise (Option OkPacket) := .pending
  let p := p.rejectIf reply.error
  let w2 := sendWelcomeEmail userData.email w1
  let p := p.resolve reply.results
  (p, w2)

end UserManager

/-! ## OrderProcessor -/

namespace OrderProcessor

/-- Value `{ available: ... }` that `checkInventory` resolves with. -/
structure Availability where
  available : Bool
deriving DecidableEq, Repr

/-- Value `{ success: ... }` that `processPayment` returns. -/
structure PaymentResult where
  success : Bool
deriving DecidableEq, Repr

/-- Method `checkInventory(productId)`. The read `results[0].quantity` throws inside the
callback when `results` is `undefined` (the query failed) or empty (no such row); the
`resolve` call is then never reached. -/
def checkInventory (d : Driver) (productId : Nat) (w : World) :
    Promise Availability × World :=
  let reply := querySelectInventory d productId w
  let p : Promise Availability := .pending
  let p := p.rejectIf reply.error
  match reply.results with
  | none => (p, w.raise (.typeError "Cannot read properties of undefined (reading 0)"))
  | some rows =>
    match rows.head? with
    | none => (p, w.raise (.typeError "Cannot read properties of undefined (reading quantity)"))
    | some row => (p.resolve ⟨decide (row.quantity > 0)⟩, w)

/-- Body of `processPayment(paymentDetails)` with the value of `success` left open. -/
def processPaymentWith (gateway : String → Bool) (paymentDetails : String) (w : World) :
    PaymentResult × World :=
  (⟨gateway paymentDetails⟩, w.log ("Processing payment " ++ paymentDetails))

/-- Method `processPayment(paymentDetails)`: logs and returns `{ success: true }`. -/
def processPayment (paymentDetails : String) (w : World) : PaymentResult × World :=
  processPaymentWith (fun _ => true) paymentDetails w

/-- Method `updateInventory(productId)`. -/
def updateInventory (d : Driver) (productId : Nat) (w : World) :
    Promise (Option OkPacket) × World :=
  let (reply, w1) := queryUpdateInventory d productId w
  let p : Promise (Option OkPacket) := .pending
  let p := p.rejectIf reply.error
  let p := p.resolve reply.results
  (p, w1)

/-- Method `sendOrderConfirmation(email)`. -/
def sendOrderConfirmation (email : String) (w : World) : World :=
  w.log ("Sending order confirmation to " ++ email)

/-- A promise that is dropped without a handler: a rejection is reported as unhandled. -/
def dropPromise {α : Type} (p : Promise α) (w : World) : World :=
  match p with
  | .rejected e => w.raise e
  | _ => w

/-- Body of `createOrder(orderData)`, with the payment step `this.processPayment`
dispatched to `pay`. An `await` on a promise that never settles never resumes; on a
rejected promise it throws, which rejects the promise of the async method. -/
def createOrderVia (pay : String → World → PaymentResult × World)
    (d : Driver) (orderData : OrderData) (w : World) : Promise (Option OkPacket) × World :=
  match checkInventory d orderData.productId w with
  | (.pending, w1) => (.pending, w1)
  | (.rejected e, w1) => (.rejected e, w1)
  | (.fulfilled inventory, w1) =>
    if !inventory.available then
      (.rejected (.error "Product out of stock"), w1)
    else
      let (payment, w2) := pay orderData.paymentDetails w1
      if !payment.success then
        (.rejected (.error "Payment failed"), w2)
      else
        let (reply, w3) := queryInsertOrder d orderData w2
        let p : Promise (Option OkPacket) := .pending
        let p := p.rejectIf reply.error
        let (pu, w4) := updateInventory d orderData.productId w3
        let w5 := dropPromise pu w4
        let w6 := sendOrderConfirmation orderData.email w5
        let p := p.resolve reply.results
        (p, w6)

/-- Method `createOrder(orderData)`. -/
def createOrder (d : Driver) (orderData : OrderData) (w : World) :
    Promise (Option OkPacket) × World :=
  createOrderVia processPayment d orderData w

end OrderProcessor

/-! ## Predicates on the store -/

/-- The column `product_id` is a key of the inventory table. -/
def KeyedInventory (w : World) : Prop :=
  (w.inventory.map (fun r => r.product_id)).Nodup

/-- No inventory row has a negative quantity. -/
def NonNegativeStock (w : World) : Prop :=
  ∀ r ∈ w.inventory, 0 ≤ r.quantity

/-- Quantity of the row the inventory check reads: `results[0].quantity`. -/
def stockOf (w : World) (productId : Nat) : Option Int :=
  (selectInventory w.inventory productId).head?.map (fun r => r.quantity)

/-! ## Sample data -/

/-- A driver that answers every query without error. -/
def healthyDriver : Driver :=
  { selectError := none
    insertReply := .ok ⟨1, 1⟩
    updateReply := .ok ⟨0, 1⟩ }

/-- A driver whose insert is answered with a duplicate-key error. -/
def insertFailingDriver : Driver :=
  { selectError := none
    insertReply := .error ⟨"ER_DUP_ENTRY", "Duplicate entry"⟩
    updateReply := .ok ⟨0, 1⟩ }

/-- An order for product 5; the payload asks for 4 units. -/
def sampleOrder : OrderData :=
  { productId := 5, quantity := 4, paymentDetails := "card", email := "c@d.com" }

/-- A user payload. -/
def sampleUser : UserData :=
  { email := "a@b.com", fields := [("name", "A")] }

/-- A store whose only inventory row is product 5 with the given quantity. -/
def storeWithStock (quantity : Int) : World :=
  { users := [], orders := [], inventory := [⟨5, quantity⟩], console := [], uncaught := [] }

/-- A store with an inventory row for product 7 only. -/
def storeWithoutProduct : World :=
  { users := [], orders := [], inventory := [⟨7, 2⟩], console := [], uncaught := [] }

/-- A driver whose update is answered with a lock timeout, the other queries without
error. -/
def updateFailingDriver : Driver :=
  { selectError := none
    insertReply := .ok ⟨1, 1⟩
    updateReply := .error ⟨"ER_LOCK_WAIT_TIMEOUT", "Lock wait timeout exceeded"⟩ }

/-- A driver whose insert and update are both answered with an error. -/
def writesFailingDriver : Driver :=
  { selectError := none
    insertReply := .error ⟨"ER_DUP_ENTRY", "Duplicate entry"⟩
    updateReply := .error ⟨"ER_LOCK_WAIT_TIMEOUT", "Lock wait timeout exceeded"⟩ }

/-- A store with no rows at all. -/
def emptyStore : World :=
  { users := [], orders := [], inventory := [], console := [], uncaught := [] }

/-- A store with two inventory rows for product 5, of quantities 1 and 0. -/
def storeWithDuplicateRows : World :=
  { users := [], orders := [], inventory := [⟨5, 1⟩, ⟨5, 0⟩], console := [], uncaught := [] }

/-! ## Helper lemmas -/

theorem stockOf_some_iff (w : World) (productId : Nat) (q : Int) :
    stockOf w productId = some q ↔
      ∃ row, (selectInventory w.inventory productId).head? = some row ∧ row.quantity = q := by
  simp [stockOf]

theorem checkInventory_of_stock (d : Driver) (productId : Nat) (w : World) (q : Int)
    (hsel : d.selectError = none) (hstock : stockOf w productId = some q) :
    OrderProcessor.checkInventory d productId w = (.fulfilled ⟨decide (q > 0)⟩, w) := by
  obtain ⟨row, hrow, hq⟩ := (stockOf_some_iff w productId q).1 hstock
  simp [OrderProcessor.checkInventory, querySelectInventory, hsel, hrow, hq,
    Promise.rejectIf, Promise.resolve]

theorem selectInventory_decrement_same (inventory : List InventoryRow) (productId : Nat) :
    selectInventory (decrementInventory inventory productId) productId =
      (selectInventory inventory productId).map
        (fun r => { r with quantity := r.quantity - 1 }) := by
  induction inventory with
  | nil => rfl
  | cons r rs ih =>
    simp only [selectInventory, decrementInventory] at ih ⊢
    by_cases h : r.product_id = productId <;> simp_all

theorem selectInventory_decrement_other (inventory : List InventoryRow)
    (productId other : Nat) (hne : other ≠ productId) :
    selectInventory (decrementInventory inventory productId) other =
      selectInventory inventory other := by
  induction inventory with
  | nil => rfl
  | cons r rs ih =>
    simp only [selectInventory, decrementInventory] at ih ⊢
    have h2 : ¬ productId = other := fun h3 => hne h3.symm
    by_cases h : r.product_id = productId
    · simp_all
    · by_cases h3 : r.product_id = other <;> simp_all [List.filter_cons]

theorem stockOf_decrement_same (w w1 : World) (productId : Nat) (q : Int)
    (hinv : w1.inventory = decrementInventory w.inventory productId)
    (hstock : stockOf w productId = some q) :
    stockOf w1 productId = some (q - 1) := by
  obtain ⟨row, hrow, hq⟩ := (stockOf_some_iff w productId q).1 hstock
  simp [stockOf, hinv, selectInventory_decrement_same, hrow, hq]

/-- Run of `createOrder` when the inventory check passes and both write queries are
answered without error. -/
theorem createOrder_run_ok (d : Driver) (orderData : OrderData) (w : World) (q : Int)
    (r u : OkPacket)
    (hsel : d.selectError = none) (hstock : stockOf w orderData.productId = some q)
    (hq : 0 < q) (hins : d.insertReply = .ok r) (hupd : d.updateReply = .ok u) :
    OrderProcessor.createOrder d orderData w =
      (.fulfilled (some r),
        { users := w.users
          orders := w.orders ++ [orderData]
          inventory := decrementInventory w.inventory orderData.productId
          console := w.console ++ ["Processing payment " ++ orderData.paymentDetails,
            "Sending order confirmation to " ++ orderData.email]
          uncaught := w.uncaught }) := by
  simp [OrderProcessor.createOrder, OrderProcessor.createOrderVia,
    checkInventory_of_stock d _ w q hsel hstock, hq, OrderProcessor.processPayment,
    OrderProcessor.processPaymentWith, queryInsertOrder, hins,
    OrderProcessor.updateInventory, queryUpdateInventory, hupd,
    OrderProcessor.dropPromise, OrderProcessor.sendOrderConfirmation, World.log,
    Promise.rejectIf, Promise.resolve]

/-- Run of `createOrder` when the inventory check passes and the insert is answered with
an error, the update without. -/
theorem createOrder_run_insert_error (d : Driver) (orderData : OrderData) (w : World)
    (q : Int) (e : StorageError) (u : OkPacket)
    (hsel : d.selectError = none) (hstock : stockOf w orderData.productId = some q)
    (hq : 0 < q) (hins : d.insertReply = .error e) (hupd : d.updateReply = .ok u) :
    OrderProcessor.createOrder d orderData w =
      (.rejected (.storage e),
        { users := w.users
          orders := w.orders
          inventory := decrementInventory w.inventory orderData.productId
          console := w.console ++ ["Processing payment " ++ orderData.paymentDetails,
            "Sending order confirmation to " ++ orderData.email]
          uncaught := w.uncaught }) := by
  simp [OrderProcessor.createOrder, OrderProcessor.createOrderVia,
    checkInventory_of_stock d _ w q hsel hstock, hq, OrderProcessor.processPayment,
    OrderProcessor.processPaymentWith, queryInsertOrder, hins,
    OrderProcessor.updateInventory, queryUpdateInventory, hupd,
    OrderProcessor.dropPromise, OrderProcessor.sendOrderConfirmation, World.log,
    Promise.rejectIf, Promise.resolve, Promise.reject]

/-- The inventory after a run of `createOrder` is the inventory before it, or its
decrement for the product, and the latter only when the row that was read had a quantity
above zero. -/
theorem createOrder_inventory_cases (d : Driver) (orderData : OrderData) (w : World) :
    (OrderProcessor.createOrder d orderData w).2.inventory = w.inventory ∨
    ((OrderProcessor.createOrder d orderData w).2.inventory =
        decrementInventory w.inventory orderData.productId ∧
      ∃ row, (selectInventory w.inventory orderData.productId).head? = some row ∧
        0 < row.quantity) := by
  obtain ⟨sel, ins, upd⟩ := d
  cases sel with
  | some e =>
    left
    simp [OrderProcessor.createOrder, OrderProcessor.createOrderVia,
      OrderProcessor.checkInventory, querySelectInventory, Promise.rejectIf,
      Promise.reject, World.raise]
  | none =>
    cases hrow : (selectInventory w.inventory orderData.productId).head? with
    | none =>
      left
      simp [OrderProcessor.createOrder, OrderProcessor.createOrderVia,
        OrderProcessor.checkInventory, querySelectInventory, Promise.rejectIf, hrow,
        World.raise]
    | some row =>
      by_cases hq : 0 < row.quantity
      · cases ins <;> cases upd <;>
          simp [OrderProcessor.createOrder, OrderProcessor.createOrderVia,
            OrderProcessor.checkInventory, querySelectInventory, Promise.rejectIf, hrow,
            hq, Promise.resolve, Promise.reject, OrderProcessor.processPayment,
            OrderProcessor.processPaymentWith, queryInsertOrder,
            OrderProcessor.updateInventory, queryUpdateInventory,
            OrderProcessor.dropPromise, OrderProcessor.sendOrderConfirmation, World.log,
            World.raise]
      · left
        simp [OrderProcessor.createOrder, OrderProcessor.createOrderVia,
          OrderProcessor.checkInventory, querySelectInventory, Promise.rejectIf, hrow,
          hq, Promise.resolve]

/-- Under a key on `product_id`, decrementing a product whose row has a quantity above
zero keeps every quantity at or above zero. -/
theorem decrementInventory_nonneg (inventory : List InventoryRow) (productId : Nat)
    (row : InventoryRow)
    (hkey : (inventory.map (fun r => r.product_id)).Nodup)
    (hnonneg : ∀ r ∈ inventory, 0 ≤ r.quantity)
    (hrow : (selectInventory inventory productId).head? = some row)
    (hq : 0 < row.quantity) :
    ∀ r ∈ decrementInventory inventory productId, 0 ≤ r.quantity := by
  intro r hr
  have hmem : row ∈ selectInventory inventory productId := List.mem_of_mem_head? hrow
  simp only [selectInventory, List.mem_filter, beq_iff_eq] at hmem
  simp only [decrementInventory, List.mem_map] at hr
  obtain ⟨r0, hr0, hr0eq⟩ := hr
  by_cases h : r0.product_id = productId
  · have hsame : r0 = row :=
      List.inj_on_of_nodup_map hkey hr0 hmem.1 (by simp [h, hmem.2])
    subst hsame
    simp [h] at hr0eq
    subst hr0eq
    simp
    omega
  · simp [h] at hr0eq
    subst hr0eq
    exact hnonneg r0 hr0

/-- Decrementing quantities leaves the column `product_id` as it was. -/
theorem decrementInventory_keys (inventory : List InventoryRow) (productId : Nat) :
    (decrementInventory inventory productId).map (fun r => r.product_id) =
      inventory.map (fun r => r.product_id) := by
  induction inventory with
  | nil => rfl
  | cons r rs ih =>
    simp only [decrementInventory] at ih ⊢
    by_cases h : r.product_id = productId <;> simp_all

/-- The rejections of `createOrder`: the out-of-stock error, or the storage error of the
select or of the insert. -/
theorem createOrder_rejections (d : Driver) (orderData : OrderData) (w : World)
    (reason : Failure)
    (hrej : (OrderProcessor.createOrder d orderData w).1 = .rejected reason) :
    reason = .error "Product out of stock" ∨
      ∃ e, reason = .storage e ∧ (d.selectError = some e ∨ d.insertReply = .error e) := by
  obtain ⟨sel, ins, upd⟩ := d
  cases sel with
  | some e =>
    right
    refine ⟨e, ?_, Or.inl rfl⟩
    simp [OrderProcessor.createOrder, OrderProcessor.createOrderVia,
      OrderProcessor.checkInventory, querySelectInventory, Promise.rejectIf,
      Promise.reject] at hrej
    exact hrej.symm
  | none =>
    cases hrow : (selectInventory w.inventory orderData.productId).head? with
    | none =>
      simp [OrderProcessor.createOrder, OrderProcessor.createOrderVia,
        OrderProcessor.checkInventory, querySelectInventory, Promise.rejectIf, hrow] at hrej
    | some row =>
      by_cases hq : 0 < row.quantity
      · cases ins with
        | ok r =>
          simp [OrderProcessor.createOrder, OrderProcessor.createOrderVia,
            OrderProcessor.checkInventory, querySelectInventory, Promise.rejectIf, hrow,
            hq, Promise.resolve, OrderProcessor.processPayment,
            OrderProcessor.processPaymentWith, queryInsertOrder] at hrej
        | error e =>
          right
          refine ⟨e, ?_, Or.inr rfl⟩
          simp [OrderProcessor.createOrder, OrderProcessor.createOrderVia,
            OrderProcessor.checkInventory, querySelectInventory, Promise.rejectIf, hrow,
            hq, Promise.resolve, Promise.reject, OrderProcessor.processPayment,
            OrderProcessor.processPaymentWith, queryInsertOrder] at hrej
          exact hrej.symm
      · left
        simp [OrderProcessor.createOrder, OrderProcessor.createOrderVia,
          OrderProcessor.checkInventory, querySelectInventory, Promise.rejectIf, hrow,
          hq, Promise.resolve] at hrej
        exact hrej.symm

/-- Run of `createOrder` for a product without an inventory row: the callback of the
inventory check throws before `resolve`, and the promise of `createOrder` stays pending. -/
theorem createOrder_run_no_row (d : Driver) (orderData : OrderData) (w : World)
    (hsel : d.selectError = none) (hstock : stockOf w orderData.productId = none) :
    OrderProcessor.createOrder d orderData w =
      (.pending,
        w.raise (.typeError "Cannot read properties of undefined (reading quantity)")) := by
  have hrow : (selectInventory w.inventory orderData.productId).head? = none := by
    simpa [stockOf] using hstock
  simp [OrderProcessor.createOrder, OrderProcessor.createOrderVia,
    OrderProcessor.checkInventory, querySelectInventory, hsel, hrow, Promise.rejectIf]

/-- The quantity read for a product depends on the inventory table only. -/
theorem stockOf_congr (w w1 : World) (productId : Nat) (hinv : w1.inventory = w.inventory) :
    stockOf w1 productId = stockOf w productId := by
  simp [stockOf, hinv]

/-- Run of `createOrder` when the inventory check passes and the insert is answered
without error, whatever the answer to the update: everything but the inventory. -/
theorem createOrder_run_insert_ok (d : Driver) (orderData : OrderData) (w : World) (q : Int)
    (r : OkPacket)
    (hsel : d.selectError = none) (hstock : stockOf w orderData.productId = some q)
    (hq : 0 < q) (hins : d.insertReply = .ok r) :
    (OrderProcessor.createOrder d orderData w).1 = .fulfilled (some r) ∧
    (OrderProcessor.createOrder d orderData w).2.orders = w.orders ++ [orderData] ∧
    (OrderProcessor.createOrder d orderData w).2.users = w.users ∧
    (OrderProcessor.createOrder d orderData w).2.console =
      w.console ++ ["Processing payment " ++ orderData.paymentDetails,
        "Sending order confirmation to " ++ orderData.email] := by
  cases hupd : d.updateReply <;>
    simp [OrderProcessor.createOrder, OrderProcessor.createOrderVia,
      checkInventory_of_stock d _ w q hsel hstock, hq, OrderProcessor.processPayment,
      OrderProcessor.processPaymentWith, queryInsertOrder, hins,
      OrderProcessor.updateInventory, queryUpdateInventory, hupd,
      OrderProcessor.dropPromise, OrderProcessor.sendOrderConfirmation, World.log,
      World.raise, Promise.rejectIf, Promise.resolve, Promise.reject]

/-- Run of `createOrder` when the inventory check passes and the insert is answered with
an error, whatever the answer to the update: everything but the inventory. -/
theorem createOrder_run_insert_failed (d : Driver) (orderData : OrderData) (w : World)
    (q : Int) (e : StorageError)
    (hsel : d.selectError = none) (hstock : stockOf w orderData.productId = some q)
    (hq : 0 < q) (hins : d.insertReply = .error e) :
    (OrderProcessor.createOrder d orderData w).1 = .rejected (.storage e) ∧
    (OrderProcessor.createOrder d orderData w).2.orders = w.orders ∧
    (OrderProcessor.createOrder d orderData w).2.users = w.users ∧
    (OrderProcessor.createOrder d orderData w).2.console =
      w.console ++ ["Processing payment " ++ orderData.paymentDetails,
        "Sending order confirmation to " ++ orderData.email] := by
  cases hupd : d.updateReply <;>
    simp [OrderProcessor.createOrder, OrderProcessor.createOrderVia,
      checkInventory_of_stock d _ w q hsel hstock, hq, OrderProcessor.processPayment,
      OrderProcessor.processPaymentWith, queryInsertOrder, hins,
      OrderProcessor.updateInventory, queryUpdateInventory, hupd,
      OrderProcessor.dropPromise, OrderProcessor.sendOrderConfirmation, World.log,
      World.raise, Promise.rejectIf, Promise.resolve, Promise.reject]

/-- Rows of products other than the ordered one are the same after a run of
`createOrder`. -/
theorem createOrder_other_products (d : Driver) (orderData : OrderData) (w : World)
    (other : Nat) (hne : other ≠ orderData.productId) :
    selectInventory (OrderProcessor.createOrder d orderData w).2.inventory other =
      selectInventory w.inventory other := by
  rcases createOrder_inventory_cases d orderData w with h | ⟨h, _⟩
  · rw [h]
  · rw [h]
    exact selectInventory_decrement_other w.inventory orderData.productId other hne

/-- The quantity read for the ordered product after a run of `createOrder` that passed
the inventory check on a quantity `q`: still `q`, or `q - 1`. -/
theorem createOrder_stock_after (d : Driver) (orderData : OrderData) (w : World) (q : Int)
    (hstock : stockOf w orderData.productId = some q) :
    stockOf (OrderProcessor.createOrder d orderData w).2 orderData.productId = some q ∨
    stockOf (OrderProcessor.createOrder d orderData w).2 orderData.productId =
      some (q - 1) := by
  rcases createOrder_inventory_cases d orderData w with h | ⟨h, _⟩
  · left
    rw [stockOf_congr w _ orderData.productId h]
    exact hstock
  · right
    exact stockOf_decrement_same w _ orderData.productId q h hstock

/-! ## Claims -/

/-- C1 (as amended): when the row read for `orderData.productId` has quantity above zero
and the select and the insert are answered without error, `createOrder` resolves with the
raw insert result, appends the payload as the one new order row, leaves the users and the
rows of other products alone, and logs one confirmation addressed to
`orderData.email`; when the update too is answered without error, the quantity of the
product is lowered by exactly 1 whatever `orderData.quantity` is. -/
theorem createOrder_success (d : Driver) (orderData : OrderData) (w : World) (q : Int)
    (r : OkPacket)
    (hsel : d.selectError = none) (hstock : stockOf w orderData.productId = some q)
    (hq : 0 < q) (hins : d.insertReply = .ok r) :
    (OrderProcessor.createOrder d orderData w).1 = .fulfilled (some r) ∧
    (OrderProcessor.createOrder d orderData w).2.orders = w.orders ++ [orderData] ∧
    (OrderProcessor.createOrder d orderData w).2.users = w.users ∧
    (∀ other, other ≠ orderData.productId →
      selectInventory (OrderProcessor.createOrder d orderData w).2.inventory other =
        selectInventory w.inventory other) ∧
    (OrderProcessor.createOrder d orderData w).2.console =
      w.console ++ ["Processing payment " ++ orderData.paymentDetails,
        "Sending order confirmation to " ++ orderData.email] ∧
    (∀ u, d.updateReply = .ok u →
      (OrderProcessor.createOrder d orderData w).2.inventory =
        decrementInventory w.inventory orderData.productId ∧
      stockOf (OrderProcessor.createOrder d orderData w).2 orderData.productId =
        some (q - 1)) := by
  obtain ⟨h1, h2, h3, h4⟩ := createOrder_run_insert_ok d orderData w q r hsel hstock hq hins
  refine ⟨h1, h2, h3, ?_, h4, ?_⟩
  · intro other hne
    exact createOrder_other_products d orderData w other hne
  · intro u hupd
    rw [createOrder_run_ok d orderData w q r u hsel hstock hq hins hupd]
    exact ⟨rfl, stockOf_decrement_same w _ orderData.productId q rfl hstock⟩

/-- Instance of the amended C1 at a healthy driver and a row of quantity 3, which the run
lowers to 2 although the payload orders 4 units. -/
theorem createOrder_success_witness :
    (OrderProcessor.createOrder healthyDriver sampleOrder (storeWithStock 3)).1 =
        .fulfilled (some ⟨1, 1⟩) ∧
    (OrderProcessor.createOrder healthyDriver sampleOrder (storeWithStock 3)).2.orders =
        (storeWithStock 3).orders ++ [sampleOrder] ∧
    (OrderProcessor.createOrder healthyDriver sampleOrder (storeWithStock 3)).2.users =
        (storeWithStock 3).users ∧
    (OrderProcessor.createOrder healthyDriver sampleOrder (storeWithStock 3)).2.console =
      (storeWithStock 3).console ++ ["Processing payment " ++ sampleOrder.paymentDetails,
        "Sending order confirmation to " ++ sampleOrder.email] ∧
    (OrderProcessor.createOrder healthyDriver sampleOrder (storeWithStock 3)).2.inventory =
      decrementInventory (storeWithStock 3).inventory sampleOrder.productId ∧
    stockOf (OrderProcessor.createOrder healthyDriver sampleOrder (storeWithStock 3)).2
      sampleOrder.productId = some (3 - 1) :=
  have h := createOrder_success healthyDriver sampleOrder (storeWithStock 3) 3 ⟨1, 1⟩
    rfl (by decide) (by decide) rfl
  ⟨h.1, h.2.1, h.2.2.1, h.2.2.2.2.1, h.2.2.2.2.2 ⟨0, 1⟩ rfl⟩

/-- C1 as stated fails: with quantity above zero, the payment passed and the insert
answered without error, an update that is answered with an error leaves the quantity as
it was, while `createOrder` still resolves. -/
theorem createOrder_success_counterexample :
    ¬ ∀ (d : Driver) (orderData : OrderData) (w : World) (q : Int) (r : OkPacket),
      d.selectError = none → stockOf w orderData.productId = some q → 0 < q →
      d.insertReply = .ok r →
      stockOf (OrderProcessor.createOrder d orderData w).2 orderData.productId =
        some (q - 1) := by
  intro h
  have h1 := h updateFailingDriver sampleOrder (storeWithStock 3) 3 ⟨1, 1⟩
    rfl (by decide) (by decide) rfl
  revert h1
  decide

/-- C2: when the row read for `orderData.productId` has quantity 0, `createOrder` rejects
with the error `Product out of stock` and the world after the call is the world before
it: no payment log line, no order row, no inventory change, no confirmation line. The
payment step is never entered, whatever it is. -/
theorem createOrder_out_of_stock (d : Driver) (orderData : OrderData) (w : World)
    (hsel : d.selectError = none) (hstock : stockOf w orderData.productId = some 0) :
    OrderProcessor.createOrder d orderData w =
      (.rejected (.error "Product out of stock"), w) ∧
    ∀ pay, OrderProcessor.createOrderVia pay d orderData w =
      (.rejected (.error "Product out of stock"), w) := by
  have h : ∀ pay, OrderProcessor.createOrderVia pay d orderData w =
      (.rejected (.error "Product out of stock"), w) := by
    intro pay
    simp [OrderProcessor.createOrderVia, checkInventory_of_stock d _ w 0 hsel hstock]
  exact ⟨h _, h⟩

theorem createOrder_out_of_stock_witness :
    OrderProcessor.createOrder healthyDriver sampleOrder (storeWithStock 0) =
      (.rejected (.error "Product out of stock"), storeWithStock 0) ∧
    ∀ pay, OrderProcessor.createOrderVia pay healthyDriver sampleOrder (storeWithStock 0) =
      (.rejected (.error "Product out of stock"), storeWithStock 0) :=
  createOrder_out_of_stock healthyDriver sampleOrder (storeWithStock 0) rfl (by decide)

/-- C3: when the inventory check passes and the payment step answers `success: false`,
the body of `createOrder` rejects with the error `Payment failed`; the only effect is the
log line of the payment step, so users, orders and inventory, and with them the quantity
of the product, are as before the call. -/
theorem createOrder_payment_failed (gateway : String → Bool) (d : Driver)
    (orderData : OrderData) (w : World) (q : Int)
    (hsel : d.selectError = none) (hstock : stockOf w orderData.productId = some q)
    (hq : 0 < q) (hpay : gateway orderData.paymentDetails = false) :
    OrderProcessor.createOrderVia (OrderProcessor.processPaymentWith gateway) d orderData w =
      (.rejected (.error "Payment failed"),
        w.log ("Processing payment " ++ orderData.paymentDetails)) ∧
    (OrderProcessor.createOrderVia (OrderProcessor.processPaymentWith gateway)
      d orderData w).2.orders = w.orders ∧
    (OrderProcessor.createOrderVia (OrderProcessor.processPaymentWith gateway)
      d orderData w).2.inventory = w.inventory ∧
    stockOf (OrderProcessor.createOrderVia (OrderProcessor.processPaymentWith gateway)
      d orderData w).2 orderData.productId = some q := by
  have h : OrderProcessor.createOrderVia (OrderProcessor.processPaymentWith gateway)
      d orderData w =
      (.rejected (.error "Payment failed"),
        w.log ("Processing payment " ++ orderData.paymentDetails)) := by
    simp [OrderProcessor.createOrderVia, checkInventory_of_stock d _ w q hsel hstock, hq,
      OrderProcessor.processPaymentWith, hpay]
  rw [h]
  exact ⟨rfl, rfl, rfl, hstock⟩

theorem createOrder_payment_failed_witness :
    OrderProcessor.createOrderVia (OrderProcessor.processPaymentWith (fun _ => false))
        healthyDriver sampleOrder (storeWithStock 3) =
      (.rejected (.error "Payment failed"),
        (storeWithStock 3).log ("Processing payment " ++ sampleOrder.paymentDetails)) ∧
    (OrderProcessor.createOrderVia (OrderProcessor.processPaymentWith (fun _ => false))
      healthyDriver sampleOrder (storeWithStock 3)).2.orders = (storeWithStock 3).orders ∧
    (OrderProcessor.createOrderVia (OrderProcessor.processPaymentWith (fun _ => false))
      healthyDriver sampleOrder (storeWithStock 3)).2.inventory =
        (storeWithStock 3).inventory ∧
    stockOf (OrderProcessor.createOrderVia (OrderProcessor.processPaymentWith (fun _ => false))
      healthyDriver sampleOrder (storeWithStock 3)).2 sampleOrder.productId = some 3 :=
  createOrder_payment_failed (fun _ => false) healthyDriver sampleOrder (storeWithStock 3) 3
    rfl (by decide) (by decide) rfl

/-- C4: for a product without an inventory row the query answers an empty list, the read
`results[0].quantity` throws a `TypeError` inside the callback, and the promise of
`createOrder` is never settled: the call does not reject with `Product out of stock`. -/
theorem createOrder_missing_product :
    OrderProcessor.createOrder healthyDriver sampleOrder storeWithoutProduct =
      (.pending,
        storeWithoutProduct.raise
          (.typeError "Cannot read properties of undefined (reading quantity)")) ∧
    (OrderProcessor.createOrder healthyDriver sampleOrder storeWithoutProduct).1 ≠
      .rejected (.error "Product out of stock") := by
  have h : OrderProcessor.createOrder healthyDriver sampleOrder storeWithoutProduct =
      (.pending,
        storeWithoutProduct.raise
          (.typeError "Cannot read properties of undefined (reading quantity)")) := by
    decide
  rw [h]
  exact ⟨rfl, by simp⟩

/-- C5 (as amended): when the insert is answered with an error, `createUser` stores no
user row and still logs the welcome line for `userData.email`; and `createOrder`, once
the inventory check and the payment have passed, commits no order row and still logs the
confirmation addressed to `orderData.email`, and, when the update is answered without
error, lowers the quantity of the product by 1. -/
theorem success_path_runs_after_insert_error (d : Driver) (orderData : OrderData)
    (userData : UserData) (w : World) (q : Int) (e : StorageError)
    (hins : d.insertReply = .error e) :
    ((UserManager.createUser d userData w).2.users = w.users ∧
      (UserManager.createUser d userData w).2.console =
        w.console ++ ["Sending welcome email to " ++ userData.email]) ∧
    (d.selectError = none → stockOf w orderData.productId = some q → 0 < q →
      (OrderProcessor.createOrder d orderData w).2.orders = w.orders ∧
      (OrderProcessor.createOrder d orderData w).2.console =
        w.console ++ ["Processing payment " ++ orderData.paymentDetails,
          "Sending order confirmation to " ++ orderData.email] ∧
      (∀ u, d.updateReply = .ok u →
        (OrderProcessor.createOrder d orderData w).2.inventory =
          decrementInventory w.inventory orderData.productId ∧
        stockOf (OrderProcessor.createOrder d orderData w).2 orderData.productId =
          some (q - 1))) := by
  refine ⟨?_, ?_⟩
  · simp [UserManager.createUser, queryInsertUser, hins, UserManager.sendWelcomeEmail,
      World.log]
  · intro hsel hstock hq
    obtain ⟨_, h2, _, h4⟩ :=
      createOrder_run_insert_failed d orderData w q e hsel hstock hq hins
    refine ⟨h2, h4, ?_⟩
    intro u hupd
    rw [createOrder_run_insert_error d orderData w q e u hsel hstock hq hins hupd]
    exact ⟨rfl, stockOf_decrement_same w _ orderData.productId q rfl hstock⟩

/-- Instance of the amended C5: `createUser` on a store without any row, and
`createOrder` on a row of quantity 3, both with the insert answered by an error. -/
theorem success_path_runs_after_insert_error_witness :
    ((UserManager.createUser insertFailingDriver sampleUser emptyStore).2.users =
        emptyStore.users ∧
      (UserManager.createUser insertFailingDriver sampleUser emptyStore).2.console =
        emptyStore.console ++ ["Sending welcome email to " ++ sampleUser.email]) ∧
    ((OrderProcessor.createOrder insertFailingDriver sampleOrder (storeWithStock 3)).2.orders =
        (storeWithStock 3).orders ∧
      (OrderProcessor.createOrder insertFailingDriver sampleOrder (storeWithStock 3)).2.console =
        (storeWithStock 3).console ++ ["Processing payment " ++ sampleOrder.paymentDetails,
          "Sending order confirmation to " ++ sampleOrder.email] ∧
      (OrderProcessor.createOrder insertFailingDriver sampleOrder
        (storeWithStock 3)).2.inventory =
        decrementInventory (storeWithStock 3).inventory sampleOrder.productId ∧
      stockOf (OrderProcessor.createOrder insertFailingDriver sampleOrder (storeWithStock 3)).2
        sampleOrder.productId = some (3 - 1)) :=
  have hu := (success_path_runs_after_insert_error insertFailingDriver sampleOrder sampleUser
    emptyStore 3 ⟨"ER_DUP_ENTRY", "Duplicate entry"⟩ rfl).1
  have ho := (success_path_runs_after_insert_error insertFailingDriver sampleOrder sampleUser
    (storeWithStock 3) 3 ⟨"ER_DUP_ENTRY", "Duplicate entry"⟩ rfl).2
      rfl (by decide) (by decide)
  ⟨hu, ho.1, ho.2.1, ho.2.2 ⟨0, 1⟩ rfl⟩

/-- C5 as stated fails: with the inventory check and the payment passed and the insert
answered with an error, an update that is answered with an error too leaves the quantity
of the product as it was. -/
theorem success_path_runs_after_insert_error_counterexample :
    ¬ ∀ (d : Driver) (orderData : OrderData) (w : World) (q : Int) (e : StorageError),
      d.selectError = none → stockOf w orderData.productId = some q → 0 < q →
      d.insertReply = .error e →
      stockOf (OrderProcessor.createOrder d orderData w).2 orderData.productId =
        some (q - 1) := by
  intro h
  have h1 := h writesFailingDriver sampleOrder (storeWithStock 3) 3
    ⟨"ER_DUP_ENTRY", "Duplicate entry"⟩ rfl (by decide) (by decide) rfl
  revert h1
  decide

/-- C6: when the insert is answered without error, `createUser` resolves with the raw
insert result, appends the payload unchanged as the one new row of `users`, logs exactly
one welcome line, addressed to `userData.email`, and leaves orders and inventory alone. -/
theorem createUser_success (d : Driver) (userData : UserData) (w : World) (r : OkPacket)
    (hins : d.insertReply = .ok r) :
    (UserManager.createUser d userData w).1 = .fulfilled (some r) ∧
    (UserManager.createUser d userData w).2.users = w.users ++ [userData] ∧
    (UserManager.createUser d userData w).2.console =
      w.console ++ ["Sending welcome email to " ++ userData.email] ∧
    (UserManager.createUser d userData w).2.orders = w.orders ∧
    (UserManager.createUser d userData w).2.inventory = w.inventory := by
  simp [UserManager.createUser, queryInsertUser, hins, UserManager.sendWelcomeEmail,
    World.log, Promise.rejectIf, Promise.resolve]

theorem createUser_success_witness :
    (UserManager.createUser healthyDriver sampleUser (storeWithStock 3)).1 =
      .fulfilled (some ⟨1, 1⟩) ∧
    (UserManager.createUser healthyDriver sampleUser (storeWithStock 3)).2.users =
      (storeWithStock 3).users ++ [sampleUser] ∧
    (UserManager.createUser healthyDriver sampleUser (storeWithStock 3)).2.console =
      (storeWithStock 3).console ++ ["Sending welcome email to " ++ sampleUser.email] ∧
    (UserManager.createUser healthyDriver sampleUser (storeWithStock 3)).2.orders =
      (storeWithStock 3).orders ∧
    (UserManager.createUser healthyDriver sampleUser (storeWithStock 3)).2.inventory =
      (storeWithStock 3).inventory :=
  createUser_success healthyDriver sampleUser (storeWithStock 3) ⟨1, 1⟩ rfl

/-- C7: when the insert is answered with the error `e`, the promise of `createUser`, on
every store and whatever the other queries are answered, ends rejected with exactly `e`;
so does the promise of `createOrder` once the inventory check and the payment have
passed: the later `resolve(results)` finds the promise settled and changes nothing. -/
theorem insert_error_reaches_caller (d : Driver) (orderData : OrderData)
    (userData : UserData) (w : World) (q : Int) (e : StorageError)
    (hins : d.insertReply = .error e) :
    (UserManager.createUser d userData w).1 = .rejected (.storage e) ∧
    (d.selectError = none → stockOf w orderData.productId = some q → 0 < q →
      (OrderProcessor.createOrder d orderData w).1 = .rejected (.storage e)) ∧
    ∀ results : Option OkPacket,
      ((Promise.pending : Promise (Option OkPacket)).rejectIf (some e)).resolve results =
        .rejected (.storage e) := by
  refine ⟨?_, ?_, ?_⟩
  · simp [UserManager.createUser, queryInsertUser, hins, Promise.rejectIf,
      Promise.resolve, Promise.reject]
  · intro hsel hstock hq
    exact (createOrder_run_insert_failed d orderData w q e hsel hstock hq hins).1
  · intro results
    rfl

/-- Instance of C7: `createUser` on a store without any row, `createOrder` on a row of
quantity 3, both with the insert answered by a duplicate-key error. -/
theorem insert_error_reaches_caller_witness :
    (UserManager.createUser insertFailingDriver sampleUser emptyStore).1 =
      .rejected (.storage ⟨"ER_DUP_ENTRY", "Duplicate entry"⟩) ∧
    (OrderProcessor.createOrder insertFailingDriver sampleOrder (storeWithStock 3)).1 =
      .rejected (.storage ⟨"ER_DUP_ENTRY", "Duplicate entry"⟩) ∧
    ∀ results : Option OkPacket,
      ((Promise.pending : Promise (Option OkPacket)).rejectIf
          (some ⟨"ER_DUP_ENTRY", "Duplicate entry"⟩)).resolve results =
        .rejected (.storage ⟨"ER_DUP_ENTRY", "Duplicate entry"⟩) :=
  have hu := insert_error_reaches_caller insertFailingDriver sampleOrder sampleUser
    emptyStore 3 ⟨"ER_DUP_ENTRY", "Duplicate entry"⟩ rfl
  have ho := insert_error_reaches_caller insertFailingDriver sampleOrder sampleUser
    (storeWithStock 3) 3 ⟨"ER_DUP_ENTRY", "Duplicate entry"⟩ rfl
  ⟨hu.1, ho.2.1 rfl (by decide) (by decide), ho.2.2⟩

/-- C8 (as amended): two runs of `createOrder` in sequence with the same payload, on a
store whose row for the product has quantity at least 2 and with the selects and the
inserts answered without error, both resolve and add two order rows, and the store after
the second run differs from the store after the first; when both updates too are answered
without error, the quantity of the product is lowered by 2. -/
theorem createOrder_not_idempotent (d1 d2 : Driver) (orderData : OrderData) (w : World)
    (q : Int) (r1 r2 : OkPacket)
    (hsel1 : d1.selectError = none) (hins1 : d1.insertReply = .ok r1)
    (hsel2 : d2.selectError = none) (hins2 : d2.insertReply = .ok r2)
    (hstock : stockOf w orderData.productId = some q) (hq : 2 ≤ q) :
    (OrderProcessor.createOrder d1 orderData w).1 = .fulfilled (some r1) ∧
    (OrderProcessor.createOrder d2 orderData
      (OrderProcessor.createOrder d1 orderData w).2).1 = .fulfilled (some r2) ∧
    (OrderProcessor.createOrder d2 orderData
      (OrderProcessor.createOrder d1 orderData w).2).2.orders =
        w.orders ++ [orderData, orderData] ∧
    (OrderProcessor.createOrder d2 orderData
      (OrderProcessor.createOrder d1 orderData w).2).2 ≠
        (OrderProcessor.createOrder d1 orderData w).2 ∧
    (∀ u1 u2, d1.updateReply = .ok u1 → d2.updateReply = .ok u2 →
      stockOf (OrderProcessor.createOrder d2 orderData
        (OrderProcessor.createOrder d1 orderData w).2).2 orderData.productId =
          some (q - 2)) := by
  have hq1 : 0 < q := by omega
  obtain ⟨a1, a2, _, _⟩ := createOrder_run_insert_ok d1 orderData w q r1 hsel1 hstock hq1 hins1
  have hmid : ∃ q1, stockOf (OrderProcessor.createOrder d1 orderData w).2
      orderData.productId = some q1 ∧ 0 < q1 := by
    rcases createOrder_stock_after d1 orderData w q hstock with h | h
    · exact ⟨q, h, hq1⟩
    · exact ⟨q - 1, h, by omega⟩
  obtain ⟨q1, hstock1, hq1pos⟩ := hmid
  obtain ⟨b1, b2, _, _⟩ := createOrder_run_insert_ok d2 orderData
    (OrderProcessor.createOrder d1 orderData w).2 q1 r2 hsel2 hstock1 hq1pos hins2
  refine ⟨a1, b1, ?_, ?_, ?_⟩
  · rw [b2, a2]
    simp
  · intro heq
    have hlen := congrArg (fun x => x.orders.length) heq
    simp only [b2] at hlen
    simp at hlen
  · intro u1 u2 hupd1 hupd2
    have run1 := createOrder_run_ok d1 orderData w q r1 u1 hsel1 hstock hq1 hins1 hupd1
    have hs1 : stockOf (OrderProcessor.createOrder d1 orderData w).2 orderData.productId =
        some (q - 1) :=
      stockOf_decrement_same w _ orderData.productId q (by rw [run1]) hstock
    have run2 := createOrder_run_ok d2 orderData (OrderProcessor.createOrder d1 orderData w).2
      (q - 1) r2 u2 hsel2 hs1 (by omega) hins2 hupd2
    have hs2 := stockOf_decrement_same (OrderProcessor.createOrder d1 orderData w).2
      (OrderProcessor.createOrder d2 orderData (OrderProcessor.createOrder d1 orderData w).2).2
      orderData.productId (q - 1) (by rw [run2]) hs1
    rw [hs2]
    congr 1
    omega

/-- Instance of the amended C8 at a healthy driver and a row of quantity 3, which the two
runs lower to 1. -/
theorem createOrder_not_idempotent_witness :
    (OrderProcessor.createOrder healthyDriver sampleOrder (storeWithStock 3)).1 =
      .fulfilled (some ⟨1, 1⟩) ∧
    (OrderProcessor.createOrder healthyDriver sampleOrder
      (OrderProcessor.createOrder healthyDriver sampleOrder (storeWithStock 3)).2).1 =
        .fulfilled (some ⟨1, 1⟩) ∧
    (OrderProcessor.createOrder healthyDriver sampleOrder
      (OrderProcessor.createOrder healthyDriver sampleOrder (storeWithStock 3)).2).2.orders =
        (storeWithStock 3).orders ++ [sampleOrder, sampleOrder] ∧
    (OrderProcessor.createOrder healthyDriver sampleOrder
      (OrderProcessor.createOrder healthyDriver sampleOrder (storeWithStock 3)).2).2 ≠
        (OrderProcessor.createOrder healthyDriver sampleOrder (storeWithStock 3)).2 ∧
    stockOf (OrderProcessor.createOrder healthyDriver sampleOrder
      (OrderProcessor.createOrder healthyDriver sampleOrder (storeWithStock 3)).2).2
        sampleOrder.productId = some (3 - 2) :=
  have h := createOrder_not_idempotent healthyDriver healthyDriver sampleOrder
    (storeWithStock 3) 3 ⟨1, 1⟩ ⟨1, 1⟩ rfl rfl rfl rfl (by decide) (by decide)
  ⟨h.1, h.2.1, h.2.2.1, h.2.2.2.1, h.2.2.2.2 ⟨0, 1⟩ ⟨0, 1⟩ rfl rfl⟩

/-- C8 as stated fails: with quantity at least 2, the payment passed and the inserts
answered without error, updates that are answered with an error leave the quantity as it
was after two runs. -/
theorem createOrder_not_idempotent_counterexample :
    ¬ ∀ (d1 d2 : Driver) (orderData : OrderData) (w : World) (q : Int) (r1 r2 : OkPacket),
      d1.selectError = none → d1.insertReply = .ok r1 →
      d2.selectError = none → d2.insertReply = .ok r2 →
      stockOf w orderData.productId = some q → 2 ≤ q →
      stockOf (OrderProcessor.createOrder d2 orderData
        (OrderProcessor.createOrder d1 orderData w).2).2 orderData.productId =
          some (q - 2) := by
  intro h
  have h1 := h updateFailingDriver updateFailingDriver sampleOrder (storeWithStock 3) 3
    ⟨1, 1⟩ ⟨1, 1⟩ rfl rfl rfl rfl (by decide) (by decide)
  revert h1
  decide

/-- C9 (as amended): on a store whose inventory is keyed by `product_id` and has no
negative quantity, one run of `createOrder`, whatever the driver answers and whatever the
outcome, leaves no negative quantity (and leaves the key in place, so the property
carries over to the next run). -/
theorem createOrder_keeps_stock_nonnegative (d : Driver) (orderData : OrderData) (w : World)
    (hkey : KeyedInventory w) (hnonneg : NonNegativeStock w) :
    NonNegativeStock (OrderProcessor.createOrder d orderData w).2 ∧
    KeyedInventory (OrderProcessor.createOrder d orderData w).2 := by
  unfold NonNegativeStock KeyedInventory at *
  rcases createOrder_inventory_cases d orderData w with h | ⟨h, row, hrow, hq⟩
  · rw [h]
    exact ⟨hnonneg, hkey⟩
  · rw [h]
    refine ⟨decrementInventory_nonneg w.inventory orderData.productId row hkey hnonneg hrow hq,
      ?_⟩
    rw [decrementInventory_keys]
    exact hkey

/-- Instance of the amended C9 at a row of quantity 1, which the run lowers to 0. -/
theorem createOrder_keeps_stock_nonnegative_witness :
    NonNegativeStock
      (OrderProcessor.createOrder healthyDriver sampleOrder (storeWithStock 1)).2 ∧
    KeyedInventory
      (OrderProcessor.createOrder healthyDriver sampleOrder (storeWithStock 1)).2 :=
  createOrder_keeps_stock_nonnegative healthyDriver sampleOrder (storeWithStock 1)
    (by simp [KeyedInventory, storeWithStock])
    (by simp [NonNegativeStock, storeWithStock])

/-- C9 as stated fails: on a store with two rows for product 5, of quantities 1 and 0,
the check reads the first row and the update lowers both, so the second row ends at -1. -/
theorem createOrder_keeps_stock_nonnegative_counterexample :
    ¬ ∀ (d : Driver) (orderData : OrderData) (w : World),
      NonNegativeStock w → NonNegativeStock (OrderProcessor.createOrder d orderData w).2 := by
  intro h
  have h1 := h healthyDriver sampleOrder storeWithDuplicateRows
    (by simp [NonNegativeStock, storeWithDuplicateRows])
  have h2 := h1 ⟨5, -1⟩ (by decide)
  revert h2
  decide

/-- C10: `processPayment` answers `success: true` for every argument, so `createOrder`
never rejects with the error `Payment failed`; when it rejects, the reason is the error
`Product out of stock` or the storage error of one of its queries. -/
theorem createOrder_never_payment_failed (d : Driver) (orderData : OrderData) (w : World) :
    (∀ paymentDetails w0, (OrderProcessor.processPayment paymentDetails w0).1 = ⟨true⟩) ∧
    (OrderProcessor.createOrder d orderData w).1 ≠ .rejected (.error "Payment failed") ∧
    ∀ reason, (OrderProcessor.createOrder d orderData w).1 = .rejected reason →
      reason = .error "Product out of stock" ∨
        ∃ e, reason = .storage e ∧ (d.selectError = some e ∨ d.insertReply = .error e) := by
  refine ⟨fun _ _ => rfl, ?_, fun reason h => createOrder_rejections d orderData w reason h⟩
  intro h
  rcases createOrder_rejections d orderData w _ h with h1 | ⟨e, h1, _⟩
  · simp at h1
  · simp at h1

end SdaLab2
